import Mathlib

/-!
# Session orchestration controller of the document assistant client

Shallow embedding of `client/src/App.js` (the `App` component with its handlers
`handleFileChange`, `handleUpload`, `handleAsk`, `handleReset`, `confirmReset`,
`cancelReset`) and of the `disabled` conditions of the buttons and inputs in
`components/UploadSection.js` and `components/QuerySection.js`.

Modelling conventions.

* The nine `useState` cells of `App` form the record `State`.
* An `async` handler is split at its single `await`: the `...Start` function is
  the synchronous part run when the handler is invoked (it reads the values of
  the render the handler closes over and may issue one request); the
  `...Resume` function is the part run when the response arrives.  What the
  second part reads from the closure (`file`, `query`, `loading`) is stored in a
  pending record; plain `setX(v)` calls overwrite the current cell, and the
  functional update `setMessages(prev => ...)` reads the current cell.
* A handler is invoked from the latest render, so at invocation the closure
  values are those of the current state.
* The remote service is a black box: each response is a parameter
  (`Except RemoteError data`).
-/

namespace RagClient

/-! ## Data model -/

/-- Browser file object: the controller reads only `name`; `content` stands for the bytes. -/
structure File where
  name : String
  content : List Nat
deriving DecidableEq, Repr

/-- Value of the `sender` field of a transcript entry (`'user'` or `'bot'`). -/
inductive Sender where
  | user
  | bot
deriving DecidableEq, Repr

/-- Transcript entry `{ text, sender }`. -/
structure Message where
  text : String
  sender : Sender
deriving DecidableEq, Repr

/-- The `loading` record `{ upload, ask }`. -/
structure Loading where
  upload : Bool
  ask : Bool
deriving DecidableEq, Repr

/-- The `useState` cells of `App`, in declaration order of the fields they hold. -/
structure State where
  file : Option File
  uploadMessage : String
  query : String
  answer : String
  showResetConfirm : Bool
  loading : Loading
  sessionId : Option String
  messages : List Message
  uploadedFileName : String
deriving DecidableEq, Repr

/-- Initial values passed to `useState`. -/
def State.initial : State :=
  { file := none, uploadMessage := "", query := "", answer := "",
    showResetConfirm := false, loading := { upload := false, ask := false },
    sessionId := none, messages := [], uploadedFileName := "" }

/-- Body of a successful `POST /upload` response (`res.data`). -/
structure UploadData where
  message : String
  session_id : String
deriving DecidableEq, Repr

/-- Body of a successful `POST /query` response (`res.data`). -/
structure QueryData where
  answer : String
deriving DecidableEq, Repr

/-- Rejected request: `detail` is `error.response?.data?.detail`, absent when any link is missing. -/
structure RemoteError where
  detail : Option String
deriving DecidableEq, Repr

/-- The three requests sent with `axios.post`. -/
inductive Request where
  | upload (file : File)
  | query (question : String) (session_id : Option String)
  | reset (session_id : String)
deriving DecidableEq, Repr

/-! ## JavaScript primitives used by the handlers -/

/-- Code points removed by `String.prototype.trim` (white space and line terminators). -/
def jsIsWhiteSpace (c : Char) : Bool :=
  let n := c.toNat
  n == 0x09 || n == 0x0A || n == 0x0B || n == 0x0C || n == 0x0D || n == 0x20 ||
  n == 0xA0 || n == 0x1680 || (0x2000 ≤ n && n ≤ 0x200A) || n == 0x2028 ||
  n == 0x2029 || n == 0x202F || n == 0x205F || n == 0x3000 || n == 0xFEFF

/-- The method `trim` on character lists: white space dropped at both ends. -/
def jsTrimChars (cs : List Char) : List Char :=
  ((cs.dropWhile jsIsWhiteSpace).reverse.dropWhile jsIsWhiteSpace).reverse

/-- The method `String.prototype.trim`. -/
def jsTrim (s : String) : String :=
  String.mk (jsTrimChars s.data)

/-- Truthiness of a string value: every string but the empty one. -/
def truthyString (s : String) : Bool :=
  !(s == "")

/-- The expression `!query.trim()`. -/
def blank (query : String) : Bool :=
  !(truthyString (jsTrim query))

/-- The expression `error.response?.data?.detail || fallback`. -/
def detailOr (error : RemoteError) (fallback : String) : String :=
  match error.detail with
  | some d => if truthyString d then d else fallback
  | none => fallback

/-- The condition `if (sessionId)`: the identifier, when it is a non-empty string. -/
def truthySession (sessionId : Option String) : Option String :=
  match sessionId with
  | some s => if truthyString s then some s else none
  | none => none

/-! ## String constants of `App.js` -/

def noFileMessage : String := "Please select a PDF file first"
def uploadFallback : String := "Upload failed. Please try again."
def noQuestionMessage : String := "Please enter a question"
def askFallback : String := "Failed to get answer. Please try again."
def resetText : String := "Session reset. All uploaded documents and history have been cleared."
def resetFailedText : String := "Failed to reset session. Please try again."

/-- The template literal announcing an upload by file name. -/
def uploadedText (name : String) : String :=
  "Document \"" ++ name ++ "\" uploaded successfully"

/-! ## Handlers -/

/-- The handler `handleFileChange`; `selected` is `e.target.files[0]` (absent when no file is chosen). -/
def handleFileChange (st : State) (selected : Option File) : State :=
  { st with
    file := selected
    uploadMessage := ""
    answer := ""
    uploadedFileName := match selected with
      | some f => if truthyString f.name then f.name else ""
      | none => "" }

/-- Closure values read by `handleUpload` after its `await`. -/
structure UploadPending where
  file : File
  loading : Loading
deriving DecidableEq, Repr

/-- Request sent by the pending upload. -/
def UploadPending.request (k : UploadPending) : Request :=
  Request.upload k.file

/-- Synchronous part of `handleUpload`, up to the `await`. -/
def handleUploadStart (st : State) : State × Option UploadPending :=
  match st.file with
  | none => ({ st with uploadMessage := noFileMessage }, none)
  | some f =>
    ({ st with loading := { st.loading with upload := true } },
     some { file := f, loading := st.loading })

/-- Part of `handleUpload` after the `await`: `try` rest or `catch`, then `finally`. -/
def handleUploadResume (k : UploadPending) (res : Except RemoteError UploadData)
    (cur : State) : State :=
  match res with
  | .ok data =>
    { cur with
      uploadMessage := data.message
      sessionId := some data.session_id
      messages := [{ text := uploadedText k.file.name, sender := Sender.bot }]
      loading := { k.loading with upload := false } }
  | .error error =>
    { cur with
      uploadMessage := detailOr error uploadFallback
      loading := { k.loading with upload := false } }

/-- The handler `handleUpload` run to completion with nothing interleaved. -/
def handleUpload (st : State) (res : Except RemoteError UploadData) : State :=
  match handleUploadStart st with
  | (st1, none) => st1
  | (st1, some k) => handleUploadResume k res st1

/-- Closure values read by `handleAsk` at and after its `await`. -/
structure AskPending where
  query : String
  sessionId : Option String
  loading : Loading
deriving DecidableEq, Repr

/-- Request sent by the pending ask. -/
def AskPending.request (k : AskPending) : Request :=
  Request.query k.query k.sessionId

/-- Synchronous part of `handleAsk`, up to the `await`. -/
def handleAskStart (st : State) : State × Option AskPending :=
  if blank st.query then
    ({ st with answer := noQuestionMessage }, none)
  else
    ({ st with loading := { st.loading with ask := true } },
     some { query := st.query, sessionId := st.sessionId, loading := st.loading })

/-- Part of `handleAsk` after the `await`: `try` rest or `catch`, then `finally`. -/
def handleAskResume (k : AskPending) (res : Except RemoteError QueryData)
    (cur : State) : State :=
  match res with
  | .ok data =>
    { cur with
      answer := data.answer
      messages := cur.messages ++
        [{ text := k.query, sender := Sender.user },
         { text := data.answer, sender := Sender.bot }]
      query := ""
      loading := { k.loading with ask := false } }
  | .error error =>
    { cur with
      answer := detailOr error askFallback
      loading := { k.loading with ask := false } }

/-- The handler `handleAsk` run to completion with nothing interleaved. -/
def handleAsk (st : State) (res : Except RemoteError QueryData) : State :=
  match handleAskStart st with
  | (st1, none) => st1
  | (st1, some k) => handleAskResume k res st1

/-- The handler `handleReset`. -/
def handleReset (st : State) : State :=
  { st with showResetConfirm := true }

/-- The handler `cancelReset`. -/
def cancelReset (st : State) : State :=
  { st with showResetConfirm := false }

/-- Pending reset request: only the identifier sent is kept, the rest of
`confirmReset` reads nothing from its closure. -/
structure ResetPending where
  sessionId : String
deriving DecidableEq, Repr

/-- Request sent by the pending reset. -/
def ResetPending.request (k : ResetPending) : Request :=
  Request.reset k.sessionId

/-- Synchronous part of `confirmReset`: the request is issued only under `if (sessionId)`. -/
def confirmResetStart (st : State) : Option ResetPending :=
  match truthySession st.sessionId with
  | some s => some { sessionId := s }
  | none => none

/-- Rest of `confirmReset`: the `try` body after the conditional request, or `catch`, then `finally`. -/
def confirmResetResume (res : Except RemoteError Unit) (cur : State) : State :=
  match res with
  | .ok _ =>
    { cur with
      sessionId := none
      messages := [{ text := resetText, sender := Sender.bot }]
      file := none
      uploadedFileName := ""
      query := ""
      answer := ""
      uploadMessage := ""
      showResetConfirm := false }
  | .error _ =>
    { cur with
      messages := cur.messages ++ [{ text := resetFailedText, sender := Sender.bot }]
      showResetConfirm := false }

/-- The handler `confirmReset` run to completion with nothing interleaved; `res`
is the outcome of the request and is read only when one is issued. -/
def confirmReset (st : State) (res : Except RemoteError Unit) : State :=
  match confirmResetStart st with
  | none => confirmResetResume (.ok ()) st
  | some _ => confirmResetResume res st

/-! ## Presentation collaborators

Only the conditions under which an element can emit its intent are embedded.
`App` passes `loading.upload` to `UploadSection` and `loading.ask` to
`QuerySection` as the prop `loading`. -/

/-- Attribute `disabled` of the upload button in `UploadSection`: `!file || loading`. -/
def UploadSection.buttonDisabled (file : Option File) (loading : Bool) : Bool :=
  file.isNone || loading

/-- Attribute `disabled` of the file input in `UploadSection`. -/
def UploadSection.inputDisabled (loading : Bool) : Bool :=
  loading

/-- Attribute `disabled` of the ask button in `QuerySection`: `!query.trim() || loading`. -/
def QuerySection.askDisabled (query : String) (loading : Bool) : Bool :=
  blank query || loading

/-- Attribute `disabled` of the textarea in `QuerySection`. -/
def QuerySection.textDisabled (loading : Bool) : Bool :=
  loading

/-! ## Event-driven execution

Intents and responses are processed one at a time.  Beside the `State`, the
system holds the requests in flight, each with the pending part of the handler
that issued it. -/

/-- Controller state together with the requests in flight, per flow. -/
structure Sys where
  st : State
  uploads : List UploadPending
  asks : List AskPending
  resets : List ResetPending
deriving DecidableEq, Repr

/-- System at mount: initial state, nothing in flight. -/
def Sys.initial : Sys :=
  { st := State.initial, uploads := [], asks := [], resets := [] }

/-- Intents emitted by the presentation layer and responses of the remote
service; a response names the position of its request among those in flight. -/
inductive Event where
  | fileChange (selected : Option File)
  | queryChange (value : String)
  | upload
  | ask
  | reset
  | confirm
  | cancel
  | uploadDone (i : Nat) (res : Except RemoteError UploadData)
  | askDone (i : Nat) (res : Except RemoteError QueryData)
  | resetDone (i : Nat) (res : Except RemoteError Unit)

/-- One event handled by the controller: an intent invokes its handler, a
response resumes the handler that issued the request (and is ignored when no
such request is in flight). -/
def step (s : Sys) (e : Event) : Sys :=
  match e with
  | .fileChange selected => { s with st := handleFileChange s.st selected }
  | .queryChange value => { s with st := { s.st with query := value } }
  | .upload =>
    match handleUploadStart s.st with
    | (st1, r) => { s with st := st1, uploads := s.uploads ++ r.toList }
  | .ask =>
    match handleAskStart s.st with
    | (st1, r) => { s with st := st1, asks := s.asks ++ r.toList }
  | .reset => { s with st := handleReset s.st }
  | .confirm =>
    match confirmResetStart s.st with
    | none => { s with st := confirmResetResume (.ok ()) s.st }
    | some k => { s with resets := s.resets ++ [k] }
  | .cancel => { s with st := cancelReset s.st }
  | .uploadDone i res =>
    match s.uploads.get? i with
    | none => s
    | some k => { s with st := handleUploadResume k res s.st, uploads := s.uploads.eraseIdx i }
  | .askDone i res =>
    match s.asks.get? i with
    | none => s
    | some k => { s with st := handleAskResume k res s.st, asks := s.asks.eraseIdx i }
  | .resetDone i res =>
    match s.resets.get? i with
    | none => s
    | some _ => { s with st := confirmResetResume res s.st, resets := s.resets.eraseIdx i }

/-- Whether the rendered page can emit the intent: a disabled element emits
nothing, and the confirmation dialog exists only under `showResetConfirm`. -/
def emittable (st : State) (e : Event) : Bool :=
  match e with
  | .fileChange _ => !(UploadSection.inputDisabled st.loading.upload)
  | .queryChange _ => !(QuerySection.textDisabled st.loading.ask)
  | .upload => !(UploadSection.buttonDisabled st.file st.loading.upload)
  | .ask => !(QuerySection.askDisabled st.query st.loading.ask)
  | .reset => true
  | .confirm => st.showResetConfirm
  | .cancel => st.showResetConfirm
  | .uploadDone _ _ => true
  | .askDone _ _ => true
  | .resetDone _ _ => true

/-- One event as it reaches the controller through the rendered page. -/
def uiStep (s : Sys) (e : Event) : Sys :=
  if emittable s.st e then step s e else s

/-- Run of the handlers over a sequence of events. -/
def run (s : Sys) (es : List Event) : Sys :=
  es.foldl step s

/-- Run of the rendered page over a sequence of events. -/
def uiRun (s : Sys) (es : List Event) : Sys :=
  es.foldl uiStep s

/-! ## Scenarios and invariants used in the statements -/

/-- File of the scenarios. -/
def contractPdf : File :=
  { name := "contract.pdf", content := [37, 80, 68, 70] }

/-- State used in the reset scenarios: session "abc", a pending file, one exchange, gate open. -/
def activeSession : State :=
  { State.initial with
    file := some contractPdf
    sessionId := some "abc"
    showResetConfirm := true
    messages := [{ text := "What is the term length?", sender := Sender.user },
                 { text := "Five years", sender := Sender.bot }] }

/-- Events up to a successful reset while an ask issued under session "abc" is in flight. -/
def askThenReset : List Event :=
  [ Event.fileChange (some contractPdf),
    Event.upload,
    Event.uploadDone 0 (.ok { message := "Processed", session_id := "abc" }),
    Event.queryChange "What is the term length?",
    Event.ask,
    Event.reset,
    Event.confirm,
    Event.resetDone 0 (.ok ()) ]

/-- Events starting an upload and then an ask while the upload is in flight. -/
def uploadThenAsk : List Event :=
  [ Event.fileChange (some contractPdf),
    Event.queryChange "What is the term length?",
    Event.upload,
    Event.ask ]

/-- Events in which a second upload intent reaches `handleUpload` while the first is in flight. -/
def uploadTwice : List Event :=
  [ Event.fileChange (some contractPdf), Event.upload, Event.upload ]

/-- Events through the rendered page: an ask, an upload started while the ask is
in flight, the ask response, then a second upload intent. -/
def uploadAcrossAsk : List Event :=
  [ Event.fileChange (some contractPdf),
    Event.queryChange "What is the term length?",
    Event.ask,
    Event.upload,
    Event.askDone 0 (.ok { answer := "Five years" }),
    Event.upload ]

/-- Events of ordinary use through the rendered page: an upload, then an ask
once the upload is done, then a second upload and a second ask, each started
when nothing is in flight; in the first round each button is clicked a second
time while its request is in flight. -/
def uploadAskUploadAsk : List Event :=
  [ Event.fileChange (some contractPdf),
    Event.upload,
    Event.upload,
    Event.uploadDone 0 (.ok { message := "Processed", session_id := "abc" }),
    Event.queryChange "What is the term length?",
    Event.ask,
    Event.ask,
    Event.askDone 0 (.ok { answer := "Five years" }),
    Event.upload,
    Event.uploadDone 0 (.error { detail := none }),
    Event.queryChange "And the notice period?",
    Event.ask ]

/-- Both flows have a request in flight. -/
def overlapping (s : Sys) : Bool :=
  !s.uploads.isEmpty && !s.asks.isEmpty

/-- No event of the sequence, run through the rendered page from `s`, arrives
while both flows have a request in flight. -/
def neverOverlap : Sys → List Event → Bool
  | _, [] => true
  | s, e :: es => !overlapping s && neverOverlap (uiStep s e) es

/-- Invariant of runs without overlap: at most one request in flight per flow,
and the busy flag of a flow set while its request is in flight. -/
def Serial (s : Sys) : Prop :=
  s.uploads.length ≤ 1 ∧ s.asks.length ≤ 1 ∧
  (s.uploads ≠ [] → s.st.loading.upload = true) ∧
  (s.asks ≠ [] → s.st.loading.ask = true)

/-! ## Auxiliary facts -/

theorem blank_eq_true_iff (q : String) : blank q = true ↔ jsTrim q = "" := by
  simp [blank, truthyString]

theorem blank_eq_false_iff (q : String) : blank q = false ↔ jsTrim q ≠ "" := by
  simp [blank, truthyString]

theorem detailOr_of_truthy (e : RemoteError) (fb d : String)
    (hd : e.detail = some d) (hne : d ≠ "") : detailOr e fb = d := by
  simp [detailOr, hd, truthyString, hne]

theorem detailOr_of_falsy (e : RemoteError) (fb : String)
    (hd : e.detail = none ∨ e.detail = some "") : detailOr e fb = fb := by
  rcases hd with hd | hd <;> simp [detailOr, hd, truthyString]

theorem handleAskStart_of_not_blank (st : State) (hq : jsTrim st.query ≠ "") :
    handleAskStart st =
      ({ st with loading := { st.loading with ask := true } },
       some { query := st.query, sessionId := st.sessionId, loading := st.loading }) := by
  have hb : blank st.query = false := (blank_eq_false_iff _).2 hq
  simp [handleAskStart, hb]

theorem handleAskStart_of_blank (st : State) (hq : jsTrim st.query = "") :
    handleAskStart st = ({ st with answer := noQuestionMessage }, none) := by
  have hb : blank st.query = true := (blank_eq_true_iff _).2 hq
  simp [handleAskStart, hb]

/-! ## Ask flow -/

/-- C1. Ask flow postcondition: from a state whose draft `q` is non-empty after
trimming, `handleAsk` issues one query request carrying `q` and the current
session.  If it succeeds with answer `a`, the transcript is the previous one
followed by the user entry for `q` and then the bot entry for `a`, `answer = a`
and the draft is empty.  If it fails, transcript and draft are as before and
`answer` is the detail string of the service, or the generic fallback when the
detail is absent or empty.  In both cases the session is as before and the ask
busy flag is false at the end. -/
theorem handleAsk_postcondition (st : State) (res : Except RemoteError QueryData)
    (hq : jsTrim st.query ≠ "") :
    ((handleAskStart st).2.map AskPending.request
        = some (Request.query st.query st.sessionId)) ∧
    (∀ a : String, res = .ok { answer := a } →
      (handleAsk st res).messages = st.messages ++
          [{ text := st.query, sender := Sender.user }, { text := a, sender := Sender.bot }] ∧
      (handleAsk st res).answer = a ∧
      (handleAsk st res).query = "") ∧
    (∀ e : RemoteError, res = .error e →
      (handleAsk st res).messages = st.messages ∧
      (handleAsk st res).query = st.query ∧
      (∀ d : String, e.detail = some d → d ≠ "" → (handleAsk st res).answer = d) ∧
      (e.detail = none ∨ e.detail = some "" →
        (handleAsk st res).answer = "Failed to get answer. Please try again.")) ∧
    (handleAsk st res).sessionId = st.sessionId ∧
    (handleAsk st res).loading.ask = false := by
  have hs := handleAskStart_of_not_blank st hq
  refine ⟨?_, ?_, ?_, ?_, ?_⟩
  · simp [hs, AskPending.request]
  · intro a ha
    subst ha
    simp [handleAsk, hs, handleAskResume]
  · intro e he
    subst he
    refine ⟨?_, ?_, ?_, ?_⟩
    · simp [handleAsk, hs, handleAskResume]
    · simp [handleAsk, hs, handleAskResume]
    · intro d hd hne
      simp [handleAsk, hs, handleAskResume, detailOr_of_truthy e _ d hd hne]
    · intro hd
      simp [handleAsk, hs, handleAskResume, detailOr_of_falsy e _ hd, askFallback]
  · cases res <;> simp [handleAsk, hs, handleAskResume]
  · cases res <;> simp [handleAsk, hs, handleAskResume]

/-- Scenario of the ask flow: draft "What is the term length?", answer "Five years". -/
theorem handleAsk_postcondition_witness :
    jsTrim "What is the term length?" ≠ "" ∧
    (handleAsk { State.initial with query := "What is the term length?" }
        (.ok { answer := "Five years" })).messages =
      [{ text := "What is the term length?", sender := Sender.user },
       { text := "Five years", sender := Sender.bot }] :=
  ⟨by decide,
   ((handleAsk_postcondition { State.initial with query := "What is the term length?" }
      (.ok { answer := "Five years" }) (by decide)).2.1 "Five years" rfl).1⟩

/-! ## Upload flow -/

/-- C2. Upload flow postcondition: from a state with a pending file named `n`,
whatever the session and the transcript, `handleUpload` issues one upload
request for that file.  If it succeeds with message `m` and session `s`, the
session is `s`, `uploadMessage = m` and the transcript is exactly the single
bot entry announcing the upload of `n`.  If it fails, session and transcript
are as before and `uploadMessage` is the detail string of the service, or the
generic fallback when the detail is absent or empty.  In both cases the upload
busy flag is false at the end. -/
theorem handleUpload_postcondition (st : State) (f : File)
    (res : Except RemoteError UploadData) (hf : st.file = some f) :
    ((handleUploadStart st).2.map UploadPending.request = some (Request.upload f)) ∧
    (∀ m s : String, res = .ok { message := m, session_id := s } →
      (handleUpload st res).sessionId = some s ∧
      (handleUpload st res).uploadMessage = m ∧
      (handleUpload st res).messages =
        [{ text := "Document \"" ++ f.name ++ "\" uploaded successfully",
           sender := Sender.bot }]) ∧
    (∀ e : RemoteError, res = .error e →
      (handleUpload st res).sessionId = st.sessionId ∧
      (handleUpload st res).messages = st.messages ∧
      (∀ d : String, e.detail = some d → d ≠ "" → (handleUpload st res).uploadMessage = d) ∧
      (e.detail = none ∨ e.detail = some "" →
        (handleUpload st res).uploadMessage = "Upload failed. Please try again.")) ∧
    (handleUpload st res).loading.upload = false := by
  refine ⟨?_, ?_, ?_, ?_⟩
  · simp [handleUploadStart, hf, UploadPending.request]
  · intro m s hres
    subst hres
    simp [handleUpload, handleUploadStart, hf, handleUploadResume, uploadedText]
  · intro e he
    subst he
    refine ⟨?_, ?_, ?_, ?_⟩
    · simp [handleUpload, handleUploadStart, hf, handleUploadResume]
    · simp [handleUpload, handleUploadStart, hf, handleUploadResume]
    · intro d hd hne
      simp [handleUpload, handleUploadStart, hf, handleUploadResume,
        detailOr_of_truthy e _ d hd hne]
    · intro hd
      simp [handleUpload, handleUploadStart, hf, handleUploadResume,
        detailOr_of_falsy e _ hd, uploadFallback]
  · cases res <;> simp [handleUpload, handleUploadStart, hf, handleUploadResume]

/-- Scenario of the upload flow: "contract.pdf" on top of an earlier session and transcript. -/
theorem handleUpload_postcondition_witness :
    (handleUpload
        { State.initial with
          file := some { name := "contract.pdf", content := [37, 80, 68, 70] }
          sessionId := some "old"
          messages := [{ text := "earlier", sender := Sender.user }] }
        (.ok { message := "Processed", session_id := "abc" })).messages =
      [{ text := "Document \"contract.pdf\" uploaded successfully", sender := Sender.bot }] :=
  ((handleUpload_postcondition
      { State.initial with
        file := some { name := "contract.pdf", content := [37, 80, 68, 70] }
        sessionId := some "old"
        messages := [{ text := "earlier", sender := Sender.user }] }
      { name := "contract.pdf", content := [37, 80, 68, 70] }
      (.ok { message := "Processed", session_id := "abc" }) rfl).2.1
    "Processed" "abc" rfl).2.2

/-! ## Reset flow -/

/-- C3. Confirmed reset, success path: when there is no session (and then no
reset request is issued) or the reset request succeeds, afterwards session and
pending file are absent, draft, `uploadMessage` and `answer` are empty, the
transcript is exactly the single bot entry announcing the reset, whatever it
held before, and the gate is closed. -/
theorem confirmReset_success (st : State) (res : Except RemoteError Unit)
    (h : st.sessionId = none ∨ res = .ok ()) :
    (st.sessionId = none → confirmResetStart st = none) ∧
    (confirmReset st res).sessionId = none ∧
    (confirmReset st res).file = none ∧
    (confirmReset st res).query = "" ∧
    (confirmReset st res).uploadMessage = "" ∧
    (confirmReset st res).answer = "" ∧
    (confirmReset st res).messages =
      [{ text := "Session reset. All uploaded documents and history have been cleared.",
         sender := Sender.bot }] ∧
    (confirmReset st res).showResetConfirm = false := by
  have hnone : st.sessionId = none → confirmResetStart st = none := by
    intro hs
    simp [confirmResetStart, truthySession, hs]
  refine ⟨hnone, ?_⟩
  rcases h with h | h
  · simp [confirmReset, hnone h, confirmResetResume, resetText]
  · subst h
    cases hk : confirmResetStart st <;> simp [confirmReset, hk, confirmResetResume, resetText]

/-- Scenario of a confirmed reset with an active session and a successful reset call. -/
theorem confirmReset_success_witness :
    (confirmReset
        { State.initial with
          sessionId := some "abc"
          showResetConfirm := true
          messages := [{ text := "q", sender := Sender.user }, { text := "a", sender := Sender.bot }] }
        (.ok ())).messages =
      [{ text := "Session reset. All uploaded documents and history have been cleared.",
         sender := Sender.bot }] :=
  (confirmReset_success
      { State.initial with
        sessionId := some "abc"
        showResetConfirm := true
        messages := [{ text := "q", sender := Sender.user }, { text := "a", sender := Sender.bot }] }
      (.ok ()) (Or.inr rfl)).2.2.2.2.2.2.1

/-- C4. Confirmed reset, failure path: when a session is present, so that
`confirmReset` issues the reset request `k` for it, and that request fails,
afterwards the transcript is the previous one with exactly one bot entry
appended, reporting the failure; session, pending file, draft, `uploadMessage`
and `answer` are as before; the gate is closed. -/
theorem confirmReset_failure (st : State) (s : String) (k : ResetPending) (e : RemoteError)
    (hs : st.sessionId = some s) (hk : confirmResetStart st = some k) :
    k.request = Request.reset s ∧
    (confirmReset st (.error e)).messages = st.messages ++
      [{ text := "Failed to reset session. Please try again.", sender := Sender.bot }] ∧
    (confirmReset st (.error e)).sessionId = st.sessionId ∧
    (confirmReset st (.error e)).file = st.file ∧
    (confirmReset st (.error e)).query = st.query ∧
    (confirmReset st (.error e)).uploadMessage = st.uploadMessage ∧
    (confirmReset st (.error e)).answer = st.answer ∧
    (confirmReset st (.error e)).showResetConfirm = false := by
  refine ⟨?_, ?_⟩
  · simp only [confirmResetStart, truthySession, hs] at hk
    split at hk
    · rename_i s1 h1
      split at h1
      · simp only [Option.some.injEq] at h1 hk
        subst h1
        subst hk
        rfl
      · cases h1
    · cases hk
  · simp [confirmReset, hk, confirmResetResume, resetFailedText]

/-- Scenario of a confirmed reset whose remote call fails. -/
theorem confirmReset_failure_witness :
    (confirmReset
        { State.initial with
          sessionId := some "abc"
          showResetConfirm := true
          messages := [{ text := "q", sender := Sender.user }] }
        (.error { detail := none })).messages =
      [{ text := "q", sender := Sender.user },
       { text := "Failed to reset session. Please try again.", sender := Sender.bot }] :=
  (confirmReset_failure
      { State.initial with
        sessionId := some "abc"
        showResetConfirm := true
        messages := [{ text := "q", sender := Sender.user }] }
      "abc" { sessionId := "abc" } { detail := none } rfl (by decide)).2.1

/-- C5, as stated, fails: with session "abc" and a failing reset call, the
state after `confirmReset` still has the session and the pending file, and the
transcript has three entries. -/
theorem confirmReset_terminal_counterexample :
    ¬ ((confirmReset activeSession (.error { detail := none })).sessionId = none ∧
       (confirmReset activeSession (.error { detail := none })).file = none ∧
       (confirmReset activeSession (.error { detail := none })).messages.length = 1 ∧
       (∀ m ∈ (confirmReset activeSession (.error { detail := none })).messages,
          m.sender = Sender.bot) ∧
       (confirmReset activeSession (.error { detail := none })).showResetConfirm = false) := by
  decide

/-- C5, amended. For every state and every outcome of the remote reset call the
gate is closed after `confirmReset`.  When no call is made or the call succeeds,
session and pending file are absent and the transcript holds exactly one entry,
sent by the bot.  When the call is made and fails, session and pending file are
as before and the transcript is the previous one plus one bot entry. -/
theorem confirmReset_terminal (st : State) (res : Except RemoteError Unit) :
    (confirmReset st res).showResetConfirm = false ∧
    (confirmResetStart st = none ∨ res = .ok () →
      (confirmReset st res).sessionId = none ∧
      (confirmReset st res).file = none ∧
      ∃ m : Message, (confirmReset st res).messages = [m] ∧ m.sender = Sender.bot) ∧
    (∀ e : RemoteError, confirmResetStart st ≠ none → res = .error e →
      (confirmReset st res).sessionId = st.sessionId ∧
      (confirmReset st res).file = st.file ∧
      ∃ m : Message, (confirmReset st res).messages = st.messages ++ [m] ∧
        m.sender = Sender.bot) := by
  refine ⟨?_, ?_, ?_⟩
  · cases hk : confirmResetStart st <;> cases res <;>
      simp [confirmReset, hk, confirmResetResume]
  · intro h
    rcases h with h | h
    · simp [confirmReset, h, confirmResetResume]
    · subst h
      cases hk : confirmResetStart st <;> simp [confirmReset, hk, confirmResetResume]
  · intro e hk he
    subst he
    cases hk1 : confirmResetStart st with
    | none => exact absurd hk1 hk
    | some k => simp [confirmReset, hk1, confirmResetResume]

/-- Both branches of the amended terminal state on the scenario state. -/
theorem confirmReset_terminal_witness :
    (confirmReset activeSession (.ok ())).sessionId = none ∧
    (confirmReset activeSession (.error { detail := some "boom" })).sessionId = some "abc" :=
  ⟨((confirmReset_terminal activeSession (.ok ())).2.1 (Or.inr rfl)).1,
   ((confirmReset_terminal activeSession (.error { detail := some "boom" })).2.2
      { detail := some "boom" } (by decide) rfl).1⟩

/-! ## Validation and the confirmation gate -/

/-- C8. Validation errors are purely local.  With a draft that is empty after
trimming, `handleAsk` issues no request and returns the state with only
`answer` changed, to the prompt; with no pending file, `handleUpload` issues no
request and returns the state with only `uploadMessage` changed, to the
no-file message.  Conversely `handleAsk` issues a request exactly when the
trimmed draft is non-empty, and `handleUpload` exactly when a pending file is
set. -/
theorem validation_is_local (st : State) :
    (jsTrim st.query = "" →
      (handleAskStart st).2 = none ∧
      ∀ res, handleAsk st res = { st with answer := "Please enter a question" }) ∧
    (st.file = none →
      (handleUploadStart st).2 = none ∧
      ∀ res, handleUpload st res = { st with uploadMessage := "Please select a PDF file first" }) ∧
    ((handleAskStart st).2.isSome = true ↔ jsTrim st.query ≠ "") ∧
    ((handleUploadStart st).2.isSome = true ↔ st.file ≠ none) := by
  refine ⟨?_, ?_, ?_, ?_⟩
  · intro hq
    have hs := handleAskStart_of_blank st hq
    refine ⟨by simp [hs], ?_⟩
    intro res
    simp [handleAsk, hs, noQuestionMessage]
  · intro hf
    refine ⟨by simp [handleUploadStart, hf], ?_⟩
    intro res
    simp [handleUpload, handleUploadStart, hf, noFileMessage]
  · by_cases hq : jsTrim st.query = ""
    · simp [handleAskStart_of_blank st hq, hq]
    · simp [handleAskStart_of_not_blank st hq, hq]
  · cases hf : st.file <;> simp [handleUploadStart, hf]

/-- Validation on a state with a blank draft, no file, a session, a transcript and both flags set. -/
theorem validation_is_local_witness :
    handleAsk
        { State.initial with
          query := "  \t\n", sessionId := some "abc", loading := { upload := true, ask := true }
          messages := [{ text := "hello", sender := Sender.bot }] }
        (.ok { answer := "unused" }) =
      { State.initial with
        query := "  \t\n", sessionId := some "abc", loading := { upload := true, ask := true }
        messages := [{ text := "hello", sender := Sender.bot }]
        answer := "Please enter a question" } :=
  ((validation_is_local
      { State.initial with
        query := "  \t\n", sessionId := some "abc", loading := { upload := true, ask := true }
        messages := [{ text := "hello", sender := Sender.bot }] }).1 (by decide)).2
    (.ok { answer := "unused" })

/-- C9. Confirmation gate latch.  A reset intent changes only the gate flag,
setting it to open, so with the gate already open it leaves the whole state
unchanged; a cancel sets the gate to closed and leaves every other cell as it
was.  Neither intent issues a request: the requests in flight are the same
before and after. -/
theorem gate_latch (s : Sys) :
    handleReset s.st = { s.st with showResetConfirm := true } ∧
    (s.st.showResetConfirm = true → handleReset s.st = s.st ∧ step s Event.reset = s) ∧
    cancelReset s.st = { s.st with showResetConfirm := false } ∧
    step s Event.reset = { s with st := handleReset s.st } ∧
    step s Event.cancel = { s with st := cancelReset s.st } ∧
    ((step s Event.reset).uploads = s.uploads ∧ (step s Event.reset).asks = s.asks ∧
      (step s Event.reset).resets = s.resets) ∧
    ((step s Event.cancel).uploads = s.uploads ∧ (step s Event.cancel).asks = s.asks ∧
      (step s Event.cancel).resets = s.resets) := by
  refine ⟨rfl, ?_, rfl, rfl, rfl, ⟨rfl, rfl, rfl⟩, ⟨rfl, rfl, rfl⟩⟩
  intro h
  have h1 : handleReset s.st = s.st := by
    cases hst : s.st
    simp [hst] at h
    simp [handleReset, h]
  refine ⟨h1, ?_⟩
  cases s
  simp [step] at h1 ⊢
  exact h1

/-- Second reset intent with the gate open, on the scenario state. -/
theorem gate_latch_witness :
    step { st := activeSession, uploads := [], asks := [], resets := [] } Event.reset =
      { st := activeSession, uploads := [], asks := [], resets := [] } :=
  ((gate_latch { st := activeSession, uploads := [], asks := [], resets := [] }).2.1 rfl).2

/-! ## Interleaved flows -/

/-- C7, as stated, fails: an ask is issued under session "abc", the confirmed
reset completes successfully and leaves the single reset entry, then the ask
response arrives and the transcript gains the old question and its answer. -/
theorem stale_ask_counterexample :
    (uiRun Sys.initial askThenReset).asks =
      [{ query := "What is the term length?", sessionId := some "abc",
         loading := { upload := false, ask := false } }] ∧
    (uiRun Sys.initial askThenReset).st.sessionId = none ∧
    (uiRun Sys.initial askThenReset).st.messages =
      [{ text := "Session reset. All uploaded documents and history have been cleared.",
         sender := Sender.bot }] ∧
    (uiStep (uiRun Sys.initial askThenReset)
        (Event.askDone 0 (.ok { answer := "Five years" }))).st.messages =
      [{ text := "Session reset. All uploaded documents and history have been cleared.",
         sender := Sender.bot },
       { text := "What is the term length?", sender := Sender.user },
       { text := "Five years", sender := Sender.bot }] := by
  decide

/-- C7, amended. Let an ask be issued from state `st` (pending part `k`), and
let a confirmed reset complete successfully afterwards, in whatever state `cur`
the controller is by then.  If the ask response that arrives next is a failure,
the transcript is still exactly the single reset entry.  If it is a success with
answer `a`, the transcript is the reset entry followed by the user entry for
the old question and the bot entry for `a`: nothing is discarded. -/
theorem stale_ask_after_reset (st cur : State) (k : AskPending)
    (hk : (handleAskStart st).2 = some k) :
    k.request = Request.query st.query st.sessionId ∧
    (∀ e : RemoteError,
      (handleAskResume k (.error e) (confirmResetResume (.ok ()) cur)).messages =
        [{ text := "Session reset. All uploaded documents and history have been cleared.",
           sender := Sender.bot }]) ∧
    (∀ a : String,
      (handleAskResume k (.ok { answer := a }) (confirmResetResume (.ok ()) cur)).messages =
        [{ text := "Session reset. All uploaded documents and history have been cleared.",
           sender := Sender.bot },
         { text := st.query, sender := Sender.user },
         { text := a, sender := Sender.bot }]) := by
  have hkq : k = { query := st.query, sessionId := st.sessionId, loading := st.loading } := by
    by_cases hq : jsTrim st.query = ""
    · simp [handleAskStart_of_blank st hq] at hk
    · simp [handleAskStart_of_not_blank st hq] at hk
      exact hk.symm
  subst hkq
  refine ⟨rfl, ?_, ?_⟩
  · intro e
    simp [handleAskResume, confirmResetResume, resetText]
  · intro a
    simp [handleAskResume, confirmResetResume, resetText]

/-- Late failure of an ask issued before the reset of the scenario state. -/
theorem stale_ask_after_reset_witness :
    (handleAskResume
        { query := "What is the term length?", sessionId := some "abc",
          loading := { upload := false, ask := false } }
        (.error { detail := some "No document uploaded" })
        (confirmResetResume (.ok ()) activeSession)).messages =
      [{ text := "Session reset. All uploaded documents and history have been cleared.",
         sender := Sender.bot }] :=
  (stale_ask_after_reset
      { activeSession with query := "What is the term length?" } activeSession
      { query := "What is the term length?", sessionId := some "abc",
        loading := { upload := false, ask := false } }
      (by decide)).2.1 { detail := some "No document uploaded" }

/-- C10 fails on the code: an ask starts while an upload is in flight (both
flags true, one request in flight in each flow); when the upload response
arrives first, the `finally` block of `handleUpload` writes the `loading` record
of its closure, taken before the ask started, and the ask busy flag becomes
false although the ask request is still in flight. -/
theorem ask_flag_lost_on_upload_response :
    (uiRun Sys.initial uploadThenAsk).st.loading = { upload := true, ask := true } ∧
    (uiRun Sys.initial uploadThenAsk).uploads.length = 1 ∧
    (uiRun Sys.initial uploadThenAsk).asks.length = 1 ∧
    (uiStep (uiRun Sys.initial uploadThenAsk)
        (Event.uploadDone 0 (.ok { message := "Processed", session_id := "abc" }))).st.loading =
      { upload := false, ask := false } ∧
    (uiStep (uiRun Sys.initial uploadThenAsk)
        (Event.uploadDone 0 (.ok { message := "Processed", session_id := "abc" }))).asks.length
      = 1 := by
  decide

/-! ## One request per flow -/

theorem length_le_one_cases {α : Type} (l : List α) (h : l.length ≤ 1) :
    l = [] ∨ ∃ a, l = [a] := by
  match l, h with
  | [], _ => exact Or.inl rfl
  | [a], _ => exact Or.inr ⟨a, rfl⟩
  | _ :: _ :: _, h => simp at h

theorem overlapping_eq_false_iff (s : Sys) :
    overlapping s = false ↔ s.uploads = [] ∨ s.asks = [] := by
  cases hu : s.uploads <;> cases ha : s.asks <;> simp [overlapping, hu, ha]

theorem serial_uiStep (s : Sys) (e : Event) (hs : Serial s)
    (hno : s.uploads = [] ∨ s.asks = []) : Serial (uiStep s e) := by
  obtain ⟨hul, hal, huf, haf⟩ := hs
  unfold uiStep
  split
  case isFalse => exact ⟨hul, hal, huf, haf⟩
  case isTrue hem =>
    cases e with
    | fileChange sel => exact ⟨hul, hal, huf, haf⟩
    | queryChange v => exact ⟨hul, hal, huf, haf⟩
    | reset => exact ⟨hul, hal, huf, haf⟩
    | cancel => exact ⟨hul, hal, huf, haf⟩
    | confirm =>
      simp only [step]
      split <;> exact ⟨hul, hal, huf, haf⟩
    | resetDone i res =>
      simp only [step]
      split
      · exact ⟨hul, hal, huf, haf⟩
      · cases res <;> exact ⟨hul, hal, huf, haf⟩
    | upload =>
      have hidle : s.st.loading.upload = false := by
        simp [emittable, UploadSection.buttonDisabled] at hem
        exact hem.2
      have hnone : s.uploads = [] := by
        by_contra hne
        have := huf hne
        simp [hidle] at this
      cases hf : s.st.file with
      | none =>
        simp [emittable, UploadSection.buttonDisabled, hf] at hem
      | some f =>
        simp only [step, handleUploadStart, hf, hnone]
        exact ⟨by simp, hal, fun _ => rfl, haf⟩
    | ask =>
      have hidle : s.st.loading.ask = false := by
        simp [emittable, QuerySection.askDisabled] at hem
        exact hem.2
      have hnone : s.asks = [] := by
        by_contra hne
        have := haf hne
        simp [hidle] at this
      by_cases hq : jsTrim s.st.query = ""
      · simp [emittable, QuerySection.askDisabled, (blank_eq_true_iff _).2 hq] at hem
      · simp only [step, handleAskStart_of_not_blank s.st hq, hnone]
        exact ⟨hul, by simp, huf, fun _ => rfl⟩
    | uploadDone i res =>
      rcases length_le_one_cases s.uploads hul with h0 | ⟨k, h1⟩
      · simp only [step, h0, List.get?_nil]
        exact ⟨by simp [h0], hal, fun h => absurd h0 h, haf⟩
      · have hasks : s.asks = [] := by
          rcases hno with h | h
          · simp [h1] at h
          · exact h
        cases i with
        | zero =>
          simp only [step, h1, List.get?_cons_zero, List.eraseIdx_cons_zero]
          exact ⟨by simp, by simp [hasks], fun h => absurd rfl h, fun h => absurd hasks h⟩
        | succ j =>
          simp only [step, h1, List.get?_cons_succ, List.get?_nil]
          exact ⟨by simp [h1], hal, fun _ => huf (by simp [h1]), haf⟩
    | askDone i res =>
      rcases length_le_one_cases s.asks hal with h0 | ⟨k, h1⟩
      · simp only [step, h0, List.get?_nil]
        exact ⟨hul, by simp [h0], huf, fun h => absurd h0 h⟩
      · have huploads : s.uploads = [] := by
          rcases hno with h | h
          · exact h
          · simp [h1] at h
        cases i with
        | zero =>
          simp only [step, h1, List.get?_cons_zero, List.eraseIdx_cons_zero]
          exact ⟨by simp [huploads], by simp, fun h => absurd huploads h, fun h => absurd rfl h⟩
        | succ j =>
          simp only [step, h1, List.get?_cons_succ, List.get?_nil]
          exact ⟨hul, by simp [h1], huf, fun _ => haf (by simp [h1])⟩

theorem serial_uiRun (es : List Event) :
    ∀ s : Sys, Serial s → neverOverlap s es = true → Serial (uiRun s es) := by
  induction es with
  | nil => intro s hs _; exact hs
  | cons e es ih =>
    intro s hs hno
    simp only [neverOverlap, Bool.and_eq_true, Bool.not_eq_true'] at hno
    have h1 : Serial (uiStep s e) :=
      serial_uiStep s e hs ((overlapping_eq_false_iff s).1 hno.1)
    exact ih (uiStep s e) h1 hno.2

theorem neverOverlap_take (es : List Event) :
    ∀ (n : Nat) (s : Sys), neverOverlap s es = true → neverOverlap s (es.take n) = true := by
  induction es with
  | nil => intro n s _; simp [neverOverlap]
  | cons e es ih =>
    intro n s h
    cases n with
    | zero => simp [neverOverlap]
    | succ m =>
      simp only [neverOverlap, Bool.and_eq_true, Bool.not_eq_true'] at h
      simp only [List.take_succ_cons, neverOverlap, Bool.and_eq_true, Bool.not_eq_true']
      exact ⟨h.1, ih m (uiStep s e) h.2⟩

/-- C6, as stated, fails.  After the first upload intent the upload busy flag
is true and one upload is in flight; `handleUpload` invoked again still issues a
request, and two uploads are in flight.  Through the rendered page two uploads
are in flight as well after `uploadAcrossAsk`. -/
theorem one_request_per_flow_counterexample :
    (run Sys.initial uploadTwice.dropLast).st.loading.upload = true ∧
    (run Sys.initial uploadTwice.dropLast).uploads.length = 1 ∧
    (handleUploadStart (run Sys.initial uploadTwice.dropLast).st).2.isSome = true ∧
    (run Sys.initial uploadTwice).uploads.length = 2 ∧
    (uiRun Sys.initial uploadAcrossAsk).uploads.length = 2 := by
  decide

/-- C6, amended. The busy flag of a flow is checked by its button, not by its
handler: an upload intent emitted through the rendered page while the upload
busy flag is true issues no request and leaves the state unchanged, and likewise
an ask intent while the ask busy flag is true.  In every sequence of events
through the rendered page from the initial state in which no event arrives
while an upload request and an ask request are both in flight, at most one
upload request and at most one ask request are in flight, after the whole
sequence and after each of its initial parts. -/
theorem one_request_per_flow (s : Sys) (es : List Event) :
    (s.st.loading.upload = true → uiStep s Event.upload = s) ∧
    (s.st.loading.ask = true → uiStep s Event.ask = s) ∧
    (neverOverlap Sys.initial es = true →
      ((uiRun Sys.initial es).uploads.length ≤ 1 ∧
       (uiRun Sys.initial es).asks.length ≤ 1) ∧
      ∀ n : Nat,
        (uiRun Sys.initial (es.take n)).uploads.length ≤ 1 ∧
        (uiRun Sys.initial (es.take n)).asks.length ≤ 1) := by
  refine ⟨?_, ?_, ?_⟩
  · intro h
    simp [uiStep, emittable, UploadSection.buttonDisabled, h]
  · intro h
    simp [uiStep, emittable, QuerySection.askDisabled, h]
  · intro hes
    have h0 : Serial Sys.initial :=
      ⟨by decide, by decide, fun h => absurd rfl h, fun h => absurd rfl h⟩
    have h1 := serial_uiRun es Sys.initial h0 hes
    refine ⟨⟨h1.1, h1.2.1⟩, ?_⟩
    intro n
    have h2 := serial_uiRun (es.take n) Sys.initial h0 (neverOverlap_take es n Sys.initial hes)
    exact ⟨h2.1, h2.2.1⟩

/-- Ordinary use: both flows started twice without overlap, the second intent of
each round arriving while the busy flag of its flow is true. -/
theorem one_request_per_flow_witness :
    (uiRun Sys.initial (uploadAskUploadAsk.take 2)).st.loading.upload = true ∧
    uiStep (uiRun Sys.initial (uploadAskUploadAsk.take 2)) Event.upload =
      uiRun Sys.initial (uploadAskUploadAsk.take 2) ∧
    neverOverlap Sys.initial uploadAskUploadAsk = true ∧
    (uiRun Sys.initial uploadAskUploadAsk).uploads.length ≤ 1 ∧
    (uiRun Sys.initial uploadAskUploadAsk).asks.length ≤ 1 :=
  ⟨by decide,
   (one_request_per_flow (uiRun Sys.initial (uploadAskUploadAsk.take 2))
      uploadAskUploadAsk).1 (by decide),
   by decide,
   ((one_request_per_flow (uiRun Sys.initial (uploadAskUploadAsk.take 2))
      uploadAskUploadAsk).2.2 (by decide)).1⟩

end RagClient
